import Mathlib

/-!
Shallow embedding of the sync orchestration engine of sync.py
(gogetmyplaylists): filename codec, throttle state machine, per-track
fetcher, per-playlist reconciliation loop and the session loop, together
with proofs of the behavioural properties claimed for them.

External effects are made explicit: the yt-dlp backend is a parameter
`backend : Track → BackendResult`, the Spotify fetch result and the
destination-folder listing are inputs, and every backend invocation and
blocking sleep is recorded in an event trace.
-/

namespace GoGetMyPlaylists

/-! ## Constants (sync.py lines 36-45) -/

def SONG_DELAY_MIN : Nat := 3

def SONG_DELAY_MAX : Nat := 8

def PLAYLIST_DELAY : Nat := 10

def CONSECUTIVE_FAIL_PAUSE : Nat := 60

def CONSECUTIVE_FAIL_THRESHOLD : Nat := 3

def CONSECUTIVE_FAIL_ABORT : Nat := 10

def THROTTLE_WAIT_1 : Nat := 60

def THROTTLE_WAIT_2 : Nat := 300

def MAX_DURATION_SECONDS : Nat := 900

def DURATION_WARN_DELTA : Nat := 30

/-! ## Python string primitives used by the helpers -/

/-- Model of Python str.lower (ASCII case mapping, as in Char.toLower). -/
def strLower (s : String) : String :=
  ⟨s.data.map Char.toLower⟩

/-- Model of Python substring membership: `needle in haystack`. -/
def strContains (haystack needle : String) : Bool :=
  (List.range (haystack.data.length + 1)).any
    (fun i => needle.data.isPrefixOf (haystack.data.drop i))

/-- ASCII whitespace stripped by Python str.strip(). -/
def isPyWhitespace (c : Char) : Bool :=
  decide (c.toNat = 32 ∨ c.toNat = 9 ∨ c.toNat = 10 ∨ c.toNat = 13 ∨ c.toNat = 11 ∨ c.toNat = 12)

/-- Model of Python str.strip(). -/
def pyStrip (s : String) : String :=
  ⟨((s.data.dropWhile isPyWhitespace).reverse.dropWhile isPyWhitespace).reverse⟩

/-- Index of the last occurrence of a character (Python str.rfind helper). -/
def rfindAux (c : Char) : List Char → Nat → Option Nat → Option Nat
  | [], _, acc => acc
  | x :: xs, i, acc => rfindAux c xs (i + 1) (if x = c then some i else acc)

/-- Model of Python str.rfind for a single character. -/
def rfind (s : String) (c : Char) : Option Nat :=
  rfindAux c s.data 0 none

/-- Model of pathlib PurePath.stem applied to a bare file name: the name
with its last dot-suffix removed, unless the only dot is leading or
trailing. -/
def pyStem (s : String) : String :=
  match rfind s '.' with
  | some i => if 0 < i ∧ i < s.data.length - 1 then ⟨s.data.take i⟩ else s
  | none => s

/-- Model of pathlib PurePath.suffix applied to a bare file name. -/
def pySuffix (s : String) : String :=
  match rfind s '.' with
  | some i => if 0 < i ∧ i < s.data.length - 1 then ⟨s.data.drop i⟩ else ""
  | none => ""

/-! ## Filename codec (sync.py lines 80-114) -/

/-- The characters removed by sanitize_filename's regex. -/
def isUnsafeChar (c : Char) : Bool :=
  c = '\"' || c = ':' || c = '\'' || c = '*' || c = '/' || c = '?' ||
    c = '\\' || c = '<' || c = '>' || c = '|'

/-- sync.py sanitize_filename: drop filesystem-unsafe characters, strip. -/
def sanitize_filename (name : String) : String :=
  pyStrip ⟨name.data.filter (fun c => !isUnsafeChar c)⟩

/-- The characters kept by normalize_for_comparison's regex `[a-z0-9]`. -/
def isLowerAlnum (c : Char) : Bool :=
  decide ((97 ≤ c.toNat ∧ c.toNat ≤ 122) ∨ (48 ≤ c.toNat ∧ c.toNat ≤ 57))

/-- sync.py normalize_for_comparison: lowercase, keep only `[a-z0-9]`. -/
def normalize_for_comparison (name : String) : String :=
  ⟨(strLower name).data.filter isLowerAlnum⟩

/-- sync.py build_track_filename: `"Artist1, Artist2 - Title.mp3"`. -/
def build_track_filename (track_name : String) (artists : List String) : String :=
  let artist_str := String.intercalate ", " artists
  let raw := artist_str ++ " - " ++ track_name
  sanitize_filename raw ++ ".mp3"

/-- sync.py existing_files_normalized on a folder listing (the dict is
modelled as the association list of its insertions; only key membership
is consumed by the reconciler). -/
def existing_files_normalized (files : List String) : List (String × String) :=
  (files.filter (fun f => strLower (pySuffix f) == ".mp3")).map
    (fun f => (normalize_for_comparison (pyStem f), f))

/-- The key set of the existing-files snapshot. -/
def folderKeys (files : List String) : List String :=
  (existing_files_normalized files).map Prod.fst

/-! ## Tracks, throttle state and error classification (sync.py 209-263) -/

/-- A Spotify track as produced by get_playlist_tracks. -/
structure Track where
  name : String
  artists : List String
  album : String
  duration_ms : Nat
  spotify_url : String
deriving DecidableEq

/-- ThrottleState: 429 events tracked across the whole session. -/
structure ThrottleState where
  count_429 : Nat
  session_aborted : Bool
deriving DecidableEq

/-- sync.py is_age_restricted. -/
def is_age_restricted (error_msg : String) : Bool :=
  strContains (strLower error_msg) "sign in to confirm your age"

/-- sync.py is_throttle_error: age restriction is explicitly excluded,
then any of the 429 indicators counts. -/
def is_throttle_error (error_msg : String) : Bool :=
  if is_age_restricted error_msg then false
  else
    let msg_lower := strLower error_msg
    ["429", "too many requests", "http error 429"].any
      (fun ind => strContains msg_lower ind)

/-! ## The fetcher: download_track (sync.py lines 266-350) -/

/-- Outcome of one yt-dlp extract_info call (the external backend):
success with a reported duration, a DownloadError with its message, or
any other exception. -/
inductive BackendResult where
  | success (duration : Option Nat)
  | downloadError (msg : String)
  | otherError
deriving DecidableEq

/-- Observable side effects: backend invocations and blocking sleeps
(the randomized inter-song jitter is a distinguished event because its
duration is drawn at run time). -/
inductive Event where
  | backendCall (query : String)
  | sleep (seconds : Nat)
  | sleepJitter
deriving DecidableEq

/-- Number of backend invocations in a trace. -/
def backendCalls (evs : List Event) : Nat :=
  evs.countP (fun e => match e with | .backendCall _ => true | _ => false)

/-- The YouTube search query built in download_track. -/
def searchQuery (t : Track) : String :=
  t.artists.headD "" ++ " - " ++ t.name ++ " official audio"

/-- sync.py download_track: returns the success flag, the updated
throttle state, and the trace of backend calls and sleeps performed. -/
def download_track (track : Track) (backend : Track → BackendResult)
    (throttle : ThrottleState) (dry_run : Bool) :
    Bool × ThrottleState × List Event :=
  if throttle.session_aborted then (false, throttle, [])
  else if dry_run then (true, throttle, [])
  else
    let query := searchQuery track
    match backend track with
    | .success _ => (true, throttle, [.backendCall query])
    | .downloadError msg =>
      if is_age_restricted msg then (false, throttle, [.backendCall query])
      else if is_throttle_error msg then
        let count := throttle.count_429 + 1
        if count = 1 then
          (false, ⟨count, throttle.session_aborted⟩,
            [.backendCall query, .sleep THROTTLE_WAIT_1])
        else if count = 2 then
          (false, ⟨count, throttle.session_aborted⟩,
            [.backendCall query, .sleep THROTTLE_WAIT_2])
        else
          (false, ⟨count, true⟩, [.backendCall query])
      else (false, throttle, [.backendCall query])
    | .otherError => (false, throttle, [.backendCall query])

/-! ## The reconciler: sync_playlist (sync.py lines 357-463) -/

/-- The per-playlist statistics dict built by sync_playlist. -/
structure Stats where
  skipped : Nat
  downloaded : Nat
  failed : Nat
  total : Nat
deriving DecidableEq

/-- An entry of the failed_tracks list (persisted after the loop). -/
structure FailedTrackRecord where
  name : String
  artists : List String
  spotify_url : String
deriving DecidableEq

/-- Which break statement ended the per-track loop early. -/
inductive StopReason where
  | sessionAborted
  | budgetReached
  | consecAbort
deriving DecidableEq

/-- The complete state of the per-track loop in sync_playlist.  The
stats dict is what the function returns; the other fields are the loop's
local variables plus the event trace, the fired break (if any) and the
number of tracks left unattempted by that break. -/
structure LoopState where
  stats : Stats
  throttle : ThrottleState
  download_count : Option Nat
  consecutive_failures : Nat
  failed_tracks : List FailedTrackRecord
  events : List Event
  stopped : Option StopReason
  unattempted : Nat
deriving DecidableEq

/-- The download-ceiling test `max_downloads is not None and
download_count and download_count[0] >= max_downloads` (the shared
mutable `[int]` cell is modelled as `Option Nat`). -/
def budgetExhausted (max_downloads download_count : Option Nat) : Bool :=
  match max_downloads, download_count with
  | some m, some c => decide (m ≤ c)
  | _, _ => false

/-- NormalizedKey of a track: normalize_for_comparison applied to the
stem of its canonical filename, exactly as computed inside the loop. -/
def normKey (t : Track) : String :=
  normalize_for_comparison (pyStem (build_track_filename t.name t.artists))

/-- One iteration of the for-loop of sync_playlist (sync.py 400-448).
`i` is the 1-based index and `n` the number of tracks (used only by the
pacing-jitter condition `i < len(tracks)`).  A fired break is recorded
in `stopped`; iterations after a break only count their track as
unattempted. -/
def syncStep (backend : Track → BackendResult) (dry_run : Bool)
    (max_downloads : Option Nat) (keys : List String) (n i : Nat)
    (track : Track) (st : LoopState) : LoopState :=
  if st.stopped.isSome then { st with unattempted := st.unattempted + 1 }
  else if st.throttle.session_aborted then
    { st with stopped := some .sessionAborted, unattempted := st.unattempted + 1 }
  else if budgetExhausted max_downloads st.download_count then
    { st with stopped := some .budgetReached, unattempted := st.unattempted + 1 }
  else if keys.contains (normKey track) then
    { st with stats := { st.stats with skipped := st.stats.skipped + 1 } }
  else
    let r := download_track track backend st.throttle dry_run
    if r.1 then
      { st with
        stats := { st.stats with downloaded := st.stats.downloaded + 1 },
        consecutive_failures := 0,
        download_count := st.download_count.map (· + 1),
        throttle := r.2.1,
        events := st.events ++ r.2.2 ++
          (if ¬dry_run ∧ i < n then [Event.sleepJitter] else []) }
    else
      let cf := st.consecutive_failures + 1
      let base := { st with
        stats := { st.stats with failed := st.stats.failed + 1 },
        consecutive_failures := cf,
        failed_tracks := st.failed_tracks ++
          [⟨track.name, track.artists, track.spotify_url⟩],
        throttle := r.2.1,
        events := st.events ++ r.2.2 }
      if CONSECUTIVE_FAIL_ABORT ≤ cf then
        { base with stopped := some .consecAbort }
      else if CONSECUTIVE_FAIL_THRESHOLD ≤ cf then
        { base with events := base.events ++ [Event.sleep CONSECUTIVE_FAIL_PAUSE] }
      else base

/-- The for-loop of sync_playlist folded over the track list. -/
def syncLoop (backend : Track → BackendResult) (dry_run : Bool)
    (max_downloads : Option Nat) (keys : List String) (n : Nat) :
    Nat → List Track → LoopState → LoopState
  | _, [], st => st
  | i, t :: ts, st =>
    syncLoop backend dry_run max_downloads keys n (i + 1) ts
      (syncStep backend dry_run max_downloads keys n i t st)

/-- The loop state at entry of sync_playlist. -/
def initLoopState (total : Nat) (throttle : ThrottleState)
    (download_count : Option Nat) : LoopState :=
  { stats := ⟨0, 0, 0, total⟩, throttle := throttle,
    download_count := download_count, consecutive_failures := 0,
    failed_tracks := [], events := [], stopped := none, unattempted := 0 }

/-- sync.py sync_playlist.  The Spotify fetch result and the listing of
the destination folder are inputs; a fetch failure returns the all-zero
stats immediately with an empty trace. -/
def sync_playlist (backend : Track → BackendResult)
    (fetched : Except String (List Track)) (files : List String)
    (throttle : ThrottleState) (dry_run : Bool)
    (max_downloads download_count : Option Nat) : LoopState :=
  match fetched with
  | .error _ => initLoopState 0 throttle download_count
  | .ok tracks =>
    syncLoop backend dry_run max_downloads (folderKeys files) tracks.length 1
      tracks (initLoopState tracks.length throttle download_count)

/-! ## The session loop of main (sync.py lines 637-660) -/

/-- Aggregate result of main's loop over playlists. -/
structure SessionResult where
  stats : Stats
  throttle : ThrottleState
  download_count : Option Nat
  events : List Event
deriving DecidableEq

/-- Field-wise accumulation of stats into the running session total. -/
def addStats (a b : Stats) : Stats :=
  ⟨a.skipped + b.skipped, a.downloaded + b.downloaded,
    a.failed + b.failed, a.total + b.total⟩

def zeroStats : Stats := ⟨0, 0, 0, 0⟩

/-- main's per-playlist loop: each playlist is its fetch result paired
with its folder listing; the loop stops when the throttle has aborted
the session, and sleeps PLAYLIST_DELAY between playlists unless dry-run,
last playlist, or abort. -/
def runSession (backend : Track → BackendResult) (dry_run : Bool)
    (max_downloads : Option Nat) :
    ThrottleState → Option Nat →
    List ((Except String (List Track)) × List String) → SessionResult
  | throttle, dc, [] => ⟨zeroStats, throttle, dc, []⟩
  | throttle, dc, p :: ps =>
    if throttle.session_aborted then ⟨zeroStats, throttle, dc, []⟩
    else
      let r := sync_playlist backend p.1 p.2 throttle dry_run max_downloads dc
      let delay : List Event :=
        if ¬dry_run ∧ ps.isEmpty = false ∧ r.throttle.session_aborted = false then
          [Event.sleep PLAYLIST_DELAY]
        else []
      let rest := runSession backend dry_run max_downloads r.throttle
        r.download_count ps
      ⟨addStats r.stats rest.stats, rest.throttle, rest.download_count,
        r.events ++ delay ++ rest.events⟩

/-! ## Helper lemmas -/

theorem is_age_restricted_eq_false_of_throttle {m : String}
    (h : is_throttle_error m = true) : is_age_restricted m = false := by
  unfold is_throttle_error at h
  by_cases hage : is_age_restricted m = true
  · rw [if_pos hage] at h
    exact absurd h (by simp)
  · simpa using hage

theorem toLower_of_isLowerAlnum {c : Char} (h : isLowerAlnum c = true) :
    c.toLower = c := by
  simp only [isLowerAlnum, decide_eq_true_eq] at h
  unfold Char.toLower
  rw [if_neg]
  omega

theorem isLowerAlnum_filter_map_toLower {l : List Char}
    (h : ∀ c ∈ l, isLowerAlnum c = true) :
    (l.map Char.toLower).filter isLowerAlnum = l := by
  induction l with
  | nil => rfl
  | cons c l ih =>
    have hc := h c (List.mem_cons_self c l)
    simp only [List.map_cons, List.filter_cons, toLower_of_isLowerAlnum hc, hc,
      if_true, List.cons.injEq, true_and]
    exact ih (fun x hx => h x (List.mem_cons_of_mem _ hx))

/-- Claim C9: normalize_for_comparison is idempotent. -/
theorem c9_normalize_idempotent (s : String) :
    normalize_for_comparison (normalize_for_comparison s) =
      normalize_for_comparison s := by
  show String.mk _ = String.mk _
  simp only [normalize_for_comparison, strLower]
  congr 1
  exact isLowerAlnum_filter_map_toLower
    (fun c hc => (List.mem_filter.mp hc).2)

/-- Claim C2 counterexample: two tracks whose titles differ only in
letter case (same artist list) yield different canonical filenames, so
build_track_filename is not case-insensitive. -/
theorem c2_case_sensitivity_counterexample :
    strLower "A" = strLower "a" ∧
    build_track_filename "A" ["X"] ≠ build_track_filename "a" ["X"] := by
  constructor
  · rfl
  · decide

/-- Claim C2 (amended): build_track_filename is deterministic — equal
title strings and equal artist lists always give the same filename
(inputs differing in case or unicode form are distinct strings and may
give different filenames). -/
theorem c2_filename_deterministic (track_name track_name2 : String)
    (artists artists2 : List String)
    (h1 : track_name = track_name2) (h2 : artists = artists2) :
    build_track_filename track_name artists =
      build_track_filename track_name2 artists2 := by
  rw [h1, h2]

theorem c2_filename_deterministic_witness :
    ("Song" : String) = "Song" ∧ (["X"] : List String) = ["X"] ∧
    build_track_filename "Song" ["X"] = build_track_filename "Song" ["X"] :=
  ⟨rfl, rfl, c2_filename_deterministic "Song" "Song" ["X"] ["X"] rfl rfl⟩

/-- Claim C7: a backend error classified as age-restricted leaves the
ThrottleState of download_track completely unchanged — count_429 is not
incremented and session_aborted is not set. -/
theorem c7_age_restricted_preserves_throttle
    (backend : Track → BackendResult) (t : Track) (msg : String)
    (throttle : ThrottleState) (dry_run : Bool)
    (hb : backend t = .downloadError msg)
    (hage : is_age_restricted msg = true) :
    (download_track t backend throttle dry_run).2.1 = throttle ∧
    (download_track t backend throttle dry_run).2.1.count_429 = throttle.count_429 ∧
    (download_track t backend throttle dry_run).2.1.session_aborted = throttle.session_aborted := by
  have h : (download_track t backend throttle dry_run).2.1 = throttle := by
    unfold download_track
    rcases hA : throttle.session_aborted with _ | _
    · rcases dry_run with _ | _
      · simp [hA, hb, hage]
      · simp [hA]
    · simp [hA]
  exact ⟨h, by rw [h], by rw [h]⟩

theorem c7_age_restricted_preserves_throttle_witness :
    is_age_restricted "ERROR: Sign in to confirm your age" = true ∧
    (download_track ⟨"T", ["A"], "", 0, ""⟩
        (fun _ => .downloadError "ERROR: Sign in to confirm your age")
        ⟨0, false⟩ false).2.1 = ⟨0, false⟩ :=
  ⟨by decide,
    (c7_age_restricted_preserves_throttle
      (fun _ => .downloadError "ERROR: Sign in to confirm your age")
      ⟨"T", ["A"], "", 0, ""⟩ "ERROR: Sign in to confirm your age"
      ⟨0, false⟩ false rfl (by decide)).1⟩

/-- Claim C1: starting from count_429 = 0, the first rate-limited
attempt sleeps 60 s and leaves session_aborted false, the second sleeps
300 s, the third performs no sleep and sets session_aborted; afterwards
every download_track call returns at once with an empty trace (no
backend call). -/
theorem c1_throttle_escalation (backend : Track → BackendResult)
    (t1 t2 t3 : Track) (m1 m2 m3 : String)
    (hb1 : backend t1 = .downloadError m1) (ht1 : is_throttle_error m1 = true)
    (hb2 : backend t2 = .downloadError m2) (ht2 : is_throttle_error m2 = true)
    (hb3 : backend t3 = .downloadError m3) (ht3 : is_throttle_error m3 = true) :
    download_track t1 backend ⟨0, false⟩ false =
      (false, ⟨1, false⟩, [.backendCall (searchQuery t1), .sleep 60]) ∧
    download_track t2 backend ⟨1, false⟩ false =
      (false, ⟨2, false⟩, [.backendCall (searchQuery t2), .sleep 300]) ∧
    download_track t3 backend ⟨2, false⟩ false =
      (false, ⟨3, true⟩, [.backendCall (searchQuery t3)]) ∧
    (∀ (t : Track) (th : ThrottleState) (dry : Bool),
      th.session_aborted = true →
        download_track t backend th dry = (false, th, [])) := by
  refine ⟨?_, ?_, ?_, ?_⟩
  · simp [download_track, hb1, is_age_restricted_eq_false_of_throttle ht1, ht1,
      THROTTLE_WAIT_1]
  · simp [download_track, hb2, is_age_restricted_eq_false_of_throttle ht2, ht2,
      THROTTLE_WAIT_2]
  · simp [download_track, hb3, is_age_restricted_eq_false_of_throttle ht3, ht3]
  · intro t th dry h
    unfold download_track
    rw [if_pos (by simp [h])]

theorem c1_throttle_escalation_witness :
    is_throttle_error "HTTP Error 429: Too Many Requests" = true ∧
    download_track ⟨"T", ["A"], "", 0, ""⟩
        (fun _ => .downloadError "HTTP Error 429: Too Many Requests")
        ⟨2, false⟩ false =
      (false, ⟨3, true⟩, [.backendCall (searchQuery ⟨"T", ["A"], "", 0, ""⟩)]) :=
  ⟨by decide,
    (c1_throttle_escalation
      (fun _ => .downloadError "HTTP Error 429: Too Many Requests")
      ⟨"T", ["A"], "", 0, ""⟩ ⟨"T", ["A"], "", 0, ""⟩ ⟨"T", ["A"], "", 0, ""⟩
      _ _ _ rfl (by decide) rfl (by decide) rfl (by decide)).2.2.1⟩

/-! ## Loop lemmas -/

theorem syncLoop_stopped (backend : Track → BackendResult) (dry_run : Bool)
    (md : Option Nat) (keys : List String) (n : Nat) :
    ∀ (ts : List Track) (i : Nat) (st : LoopState), st.stopped.isSome = true →
    syncLoop backend dry_run md keys n i ts st =
      { st with unattempted := st.unattempted + ts.length } := by
  intro ts
  induction ts with
  | nil =>
    intro i st _
    show st = _
    simp
  | cons t ts ih =>
    intro i st h
    show syncLoop backend dry_run md keys n (i + 1) ts
      (syncStep backend dry_run md keys n i t st) = _
    rw [syncStep, if_pos h, ih]
    · show ({ st with unattempted := st.unattempted + 1 + ts.length } : LoopState) = _
      have : st.unattempted + 1 + ts.length = st.unattempted + (ts.length + 1) := by omega
      rw [this]
      rfl
    · exact h

theorem syncStep_counts_one (backend : Track → BackendResult) (dry_run : Bool)
    (md : Option Nat) (keys : List String) (n i : Nat) (t : Track)
    (st : LoopState) :
    (syncStep backend dry_run md keys n i t st).stats.skipped +
        (syncStep backend dry_run md keys n i t st).stats.downloaded +
        (syncStep backend dry_run md keys n i t st).stats.failed +
        (syncStep backend dry_run md keys n i t st).unattempted =
      st.stats.skipped + st.stats.downloaded + st.stats.failed +
        st.unattempted + 1 ∧
    (syncStep backend dry_run md keys n i t st).stats.total = st.stats.total := by
  unfold syncStep
  repeat' split
  all_goals simp
  all_goals try omega
  all_goals repeat' split
  all_goals simp
  all_goals omega

theorem syncLoop_counts (backend : Track → BackendResult) (dry_run : Bool)
    (md : Option Nat) (keys : List String) (n : Nat) :
    ∀ (ts : List Track) (i : Nat) (st : LoopState),
    (syncLoop backend dry_run md keys n i ts st).stats.skipped +
        (syncLoop backend dry_run md keys n i ts st).stats.downloaded +
        (syncLoop backend dry_run md keys n i ts st).stats.failed +
        (syncLoop backend dry_run md keys n i ts st).unattempted =
      st.stats.skipped + st.stats.downloaded + st.stats.failed +
        st.unattempted + ts.length ∧
    (syncLoop backend dry_run md keys n i ts st).stats.total = st.stats.total := by
  intro ts
  induction ts with
  | nil =>
    intro i st
    exact ⟨rfl, rfl⟩
  | cons t ts ih =>
    intro i st
    simp only [syncLoop]
    obtain ⟨h1, h2⟩ := ih (i + 1) (syncStep backend dry_run md keys n i t st)
    obtain ⟨g1, g2⟩ := syncStep_counts_one backend dry_run md keys n i t st
    constructor
    · rw [h1]
      simp only [List.length_cons]
      omega
    · rw [h2, g2]

/-- Claim C10 (amended): the stats of sync_playlist always satisfy
skipped + downloaded + failed + unattempted = total, hence
skipped + downloaded + failed ≤ total, with equality exactly when no
track was left unattempted by an early stop.  (A consecutive-failure
abort that fires on the final track leaves no track unattempted, so
equality can hold even though that break fired.) -/
theorem c10_stats_sum (backend : Track → BackendResult)
    (fetched : Except String (List Track)) (files : List String)
    (throttle : ThrottleState) (dry_run : Bool) (md dc : Option Nat) :
    (sync_playlist backend fetched files throttle dry_run md dc).stats.skipped +
        (sync_playlist backend fetched files throttle dry_run md dc).stats.downloaded +
        (sync_playlist backend fetched files throttle dry_run md dc).stats.failed +
        (sync_playlist backend fetched files throttle dry_run md dc).unattempted =
      (sync_playlist backend fetched files throttle dry_run md dc).stats.total ∧
    (sync_playlist backend fetched files throttle dry_run md dc).stats.skipped +
        (sync_playlist backend fetched files throttle dry_run md dc).stats.downloaded +
        (sync_playlist backend fetched files throttle dry_run md dc).stats.failed ≤
      (sync_playlist backend fetched files throttle dry_run md dc).stats.total ∧
    ((sync_playlist backend fetched files throttle dry_run md dc).stats.skipped +
        (sync_playlist backend fetched files throttle dry_run md dc).stats.downloaded +
        (sync_playlist backend fetched files throttle dry_run md dc).stats.failed =
      (sync_playlist backend fetched files throttle dry_run md dc).stats.total ↔
      (sync_playlist backend fetched files throttle dry_run md dc).unattempted = 0) := by
  have key : (sync_playlist backend fetched files throttle dry_run md dc).stats.skipped +
      (sync_playlist backend fetched files throttle dry_run md dc).stats.downloaded +
      (sync_playlist backend fetched files throttle dry_run md dc).stats.failed +
      (sync_playlist backend fetched files throttle dry_run md dc).unattempted =
      (sync_playlist backend fetched files throttle dry_run md dc).stats.total := by
    match fetched with
    | .error e => rfl
    | .ok tracks =>
      obtain ⟨h1, h2⟩ := syncLoop_counts backend dry_run md (folderKeys files)
        tracks.length tracks 1 (initLoopState tracks.length throttle dc)
      simp only [sync_playlist]
      rw [h1, h2]
      show 0 + 0 + 0 + 0 + tracks.length = tracks.length
      omega
  exact ⟨key, by omega, by omega⟩

/-- Claim C10 counterexample: a 10-track playlist whose every download
fails has skipped + downloaded + failed = total even though the
consecutive-failure abort (an early stop) fired, so "equality holds
exactly when the loop runs without an early stop" is false as stated. -/
theorem c10_sum_counterexample :
    (sync_playlist (fun _ => .downloadError "boom")
        (.ok (List.replicate 10 (⟨"T", ["A"], "", 0, ""⟩ : Track))) []
        ⟨0, false⟩ false none none).stats.skipped +
      (sync_playlist (fun _ => .downloadError "boom")
        (.ok (List.replicate 10 (⟨"T", ["A"], "", 0, ""⟩ : Track))) []
        ⟨0, false⟩ false none none).stats.downloaded +
      (sync_playlist (fun _ => .downloadError "boom")
        (.ok (List.replicate 10 (⟨"T", ["A"], "", 0, ""⟩ : Track))) []
        ⟨0, false⟩ false none none).stats.failed =
      (sync_playlist (fun _ => .downloadError "boom")
        (.ok (List.replicate 10 (⟨"T", ["A"], "", 0, ""⟩ : Track))) []
        ⟨0, false⟩ false none none).stats.total ∧
    (sync_playlist (fun _ => .downloadError "boom")
        (.ok (List.replicate 10 (⟨"T", ["A"], "", 0, ""⟩ : Track))) []
        ⟨0, false⟩ false none none).stopped = some .consecAbort := by
  decide

theorem syncStep_skip (backend : Track → BackendResult) (dry_run : Bool)
    (md : Option Nat) (keys : List String) (n i : Nat) (t : Track)
    (st : LoopState) (hstop : st.stopped = none)
    (hab : st.throttle.session_aborted = false)
    (hbud : budgetExhausted md st.download_count = false)
    (hkey : keys.contains (normKey t) = true) :
    syncStep backend dry_run md keys n i t st =
      { st with stats := { st.stats with skipped := st.stats.skipped + 1 } } := by
  unfold syncStep
  rw [if_neg (by simp [hstop]), if_neg (by simp [hab]), if_neg (by simp [hbud]),
    if_pos hkey]

theorem syncLoop_all_skip (backend : Track → BackendResult) (dry_run : Bool)
    (md : Option Nat) (keys : List String) (n : Nat) :
    ∀ (ts : List Track) (i : Nat) (st : LoopState),
    st.stopped = none →
    st.throttle.session_aborted = false →
    budgetExhausted md st.download_count = false →
    (∀ t ∈ ts, keys.contains (normKey t) = true) →
    syncLoop backend dry_run md keys n i ts st =
      { st with stats := { st.stats with skipped := st.stats.skipped + ts.length } } := by
  intro ts
  induction ts with
  | nil =>
    intro i st _ _ _ _
    show st = _
    simp
  | cons t ts ih =>
    intro i st hstop hab hbud hall
    simp only [syncLoop]
    rw [syncStep_skip backend dry_run md keys n i t st hstop hab hbud
      (hall t (List.mem_cons_self t ts))]
    rw [ih (i + 1)
      { st with stats := { st.stats with skipped := st.stats.skipped + 1 } }
      hstop hab hbud (fun x hx => hall x (List.mem_cons_of_mem _ hx))]
    show ({ st with stats := { st.stats with
      skipped := st.stats.skipped + 1 + ts.length } } : LoopState) = _
    have : st.stats.skipped + 1 + ts.length = st.stats.skipped + (ts.length + 1) := by
      omega
    rw [this]
    rfl

/-- Claim C3: a track whose NormalizedKey is a key of the snapshot is
counted as skipped with no backend call and no state change (first
conjunct, one loop iteration); consequently a playlist whose folder
already contains every track returns skipped == total, downloaded == 0
and an empty event trace — zero network calls (second conjunct). -/
theorem c3_skip_existing (backend : Track → BackendResult)
    (tracks : List Track) (files : List String) (throttle : ThrottleState)
    (dry_run : Bool) (md dc : Option Nat)
    (hab : throttle.session_aborted = false)
    (hbud : budgetExhausted md dc = false)
    (hall : ∀ t ∈ tracks, (folderKeys files).contains (normKey t) = true) :
    (∀ (t : Track) (st : LoopState) (n i : Nat), st.stopped = none →
      st.throttle.session_aborted = false →
      budgetExhausted md st.download_count = false →
      (folderKeys files).contains (normKey t) = true →
      syncStep backend dry_run md (folderKeys files) n i t st =
        { st with stats := { st.stats with skipped := st.stats.skipped + 1 } }) ∧
    sync_playlist backend (.ok tracks) files throttle dry_run md dc =
      { stats := ⟨tracks.length, 0, 0, tracks.length⟩, throttle := throttle,
        download_count := dc, consecutive_failures := 0, failed_tracks := [],
        events := [], stopped := none, unattempted := 0 } := by
  constructor
  · intro t st n i hstop hab2 hbud2 hkey
    exact syncStep_skip backend dry_run md (folderKeys files) n i t st hstop hab2
      hbud2 hkey
  · simp only [sync_playlist]
    rw [syncLoop_all_skip backend dry_run md (folderKeys files) tracks.length
      tracks 1 (initLoopState tracks.length throttle dc) rfl hab hbud hall]
    show ({ initLoopState tracks.length throttle dc with
      stats := { (initLoopState tracks.length throttle dc).stats with
        skipped := 0 + tracks.length } } : LoopState) = _
    simp [initLoopState]

theorem c3_skip_existing_witness :
    (⟨0, false⟩ : ThrottleState).session_aborted = false ∧
    budgetExhausted none none = false ∧
    (∀ t ∈ [(⟨"T", ["A"], "", 0, ""⟩ : Track)],
      (folderKeys ["A - T.mp3"]).contains (normKey t) = true) ∧
    sync_playlist (fun _ => .otherError)
        (.ok [(⟨"T", ["A"], "", 0, ""⟩ : Track)]) ["A - T.mp3"]
        ⟨0, false⟩ false none none =
      { stats := ⟨1, 0, 0, 1⟩, throttle := ⟨0, false⟩, download_count := none,
        consecutive_failures := 0, failed_tracks := [], events := [],
        stopped := none, unattempted := 0 } :=
  ⟨rfl, rfl, by decide,
    (c3_skip_existing (fun _ => .otherError) [⟨"T", ["A"], "", 0, ""⟩]
      ["A - T.mp3"] ⟨0, false⟩ false none none rfl rfl (by decide)).2⟩

theorem backendCalls_append (a b : List Event) :
    backendCalls (a ++ b) = backendCalls a + backendCalls b := by
  unfold backendCalls
  exact List.countP_append _ _ _

theorem download_track_generic_failure (backend : Track → BackendResult)
    (t : Track) (m : String) (th : ThrottleState)
    (hab : th.session_aborted = false)
    (hb : backend t = .downloadError m)
    (ht : is_throttle_error m = false) :
    download_track t backend th false =
      (false, th, [.backendCall (searchQuery t)]) := by
  unfold download_track
  rw [if_neg (by simp [hab])]
  rw [if_neg (by simp)]
  rw [hb]
  rcases hage : is_age_restricted m with _ | _
  · simp [hage, ht]
  · simp [hage]

/-- One failing iteration: a non-successful download_track outcome that
leaves the throttle untouched increments failed and the consecutive
counter, then either aborts the playlist (at 10) or pauses (at 3-9). -/
theorem syncStep_generic_failure (backend : Track → BackendResult)
    (md : Option Nat) (keys : List String) (n i : Nat) (t : Track) (m : String)
    (st : LoopState) (hstop : st.stopped = none)
    (hab : st.throttle.session_aborted = false)
    (hbud : budgetExhausted md st.download_count = false)
    (hkey : keys.contains (normKey t) = false)
    (hb : backend t = .downloadError m) (ht : is_throttle_error m = false) :
    syncStep backend false md keys n i t st =
      (if 10 ≤ st.consecutive_failures + 1 then
        { st with
          stats := { st.stats with failed := st.stats.failed + 1 },
          consecutive_failures := st.consecutive_failures + 1,
          failed_tracks := st.failed_tracks ++
            [⟨t.name, t.artists, t.spotify_url⟩],
          events := st.events ++ [.backendCall (searchQuery t)],
          stopped := some .consecAbort }
      else if 3 ≤ st.consecutive_failures + 1 then
        { st with
          stats := { st.stats with failed := st.stats.failed + 1 },
          consecutive_failures := st.consecutive_failures + 1,
          failed_tracks := st.failed_tracks ++
            [⟨t.name, t.artists, t.spotify_url⟩],
          events := st.events ++ [.backendCall (searchQuery t)] ++ [.sleep 60] }
      else
        { st with
          stats := { st.stats with failed := st.stats.failed + 1 },
          consecutive_failures := st.consecutive_failures + 1,
          failed_tracks := st.failed_tracks ++
            [⟨t.name, t.artists, t.spotify_url⟩],
          events := st.events ++ [.backendCall (searchQuery t)] }) := by
  unfold syncStep
  rw [if_neg (by simp [hstop]), if_neg (by simp [hab]), if_neg (by simp [hbud]),
    if_neg (by rw [hkey]; simp)]
  simp only [download_track_generic_failure backend t m st.throttle hab hb ht]
  rfl

theorem syncLoop_all_fail (backend : Track → BackendResult)
    (md : Option Nat) (keys : List String) (n : Nat) (msg : Track → String) :
    ∀ (ts : List Track) (i : Nat) (st : LoopState),
    st.stopped = none →
    st.throttle.session_aborted = false →
    budgetExhausted md st.download_count = false →
    st.consecutive_failures < 10 →
    10 - st.consecutive_failures ≤ ts.length →
    (∀ t ∈ ts, keys.contains (normKey t) = false ∧
      backend t = .downloadError (msg t) ∧ is_throttle_error (msg t) = false) →
    (syncLoop backend false md keys n i ts st).stats.skipped = st.stats.skipped ∧
    (syncLoop backend false md keys n i ts st).stats.downloaded = st.stats.downloaded ∧
    (syncLoop backend false md keys n i ts st).stats.failed =
      st.stats.failed + (10 - st.consecutive_failures) ∧
    (syncLoop backend false md keys n i ts st).stats.total = st.stats.total ∧
    (syncLoop backend false md keys n i ts st).throttle = st.throttle ∧
    (syncLoop backend false md keys n i ts st).download_count = st.download_count ∧
    (syncLoop backend false md keys n i ts st).consecutive_failures = 10 ∧
    (syncLoop backend false md keys n i ts st).stopped = some .consecAbort ∧
    (syncLoop backend false md keys n i ts st).unattempted =
      st.unattempted + (ts.length - (10 - st.consecutive_failures)) ∧
    backendCalls (syncLoop backend false md keys n i ts st).events =
      backendCalls st.events + (10 - st.consecutive_failures) := by
  intro ts
  induction ts with
  | nil =>
    intro i st _ _ _ hcf hlen _
    simp only [List.length_nil] at hlen
    omega
  | cons t ts ih =>
    intro i st hstop hab hbud hcf hlen hall
    obtain ⟨hkey, hb, ht⟩ := hall t (List.mem_cons_self t ts)
    simp only [syncLoop]
    rw [syncStep_generic_failure backend md keys n i t (msg t) st hstop hab hbud
      hkey hb ht]
    by_cases habort : 10 ≤ st.consecutive_failures + 1
    · rw [if_pos habort]
      rw [syncLoop_stopped backend false md keys n ts (i + 1)
        { st with
          stats := { st.stats with failed := st.stats.failed + 1 },
          consecutive_failures := st.consecutive_failures + 1,
          failed_tracks := st.failed_tracks ++
            [⟨t.name, t.artists, t.spotify_url⟩],
          events := st.events ++ [.backendCall (searchQuery t)],
          stopped := some .consecAbort } rfl]
      have hc9 : st.consecutive_failures = 9 := by omega
      refine ⟨rfl, rfl, ?_, rfl, rfl, rfl, ?_, rfl, ?_, ?_⟩
      · simp [hc9]
      · simp [hc9]
      · simp only [List.length_cons, hc9]
        omega
      · rw [backendCalls_append]
        simp [backendCalls, hc9]
    · rw [if_neg habort]
      have hrec : ∀ st2 : LoopState,
          st2.stats.skipped = st.stats.skipped →
          st2.stats.downloaded = st.stats.downloaded →
          st2.stats.failed = st.stats.failed + 1 →
          st2.stats.total = st.stats.total →
          st2.throttle = st.throttle →
          st2.download_count = st.download_count →
          st2.consecutive_failures = st.consecutive_failures + 1 →
          st2.stopped = none →
          st2.unattempted = st.unattempted →
          backendCalls st2.events = backendCalls st.events + 1 →
          (syncLoop backend false md keys n (i + 1) ts st2).stats.skipped = st.stats.skipped ∧
          (syncLoop backend false md keys n (i + 1) ts st2).stats.downloaded = st.stats.downloaded ∧
          (syncLoop backend false md keys n (i + 1) ts st2).stats.failed =
            st.stats.failed + (10 - st.consecutive_failures) ∧
          (syncLoop backend false md keys n (i + 1) ts st2).stats.total = st.stats.total ∧
          (syncLoop backend false md keys n (i + 1) ts st2).throttle = st.throttle ∧
          (syncLoop backend false md keys n (i + 1) ts st2).download_count = st.download_count ∧
          (syncLoop backend false md keys n (i + 1) ts st2).consecutive_failures = 10 ∧
          (syncLoop backend false md keys n (i + 1) ts st2).stopped = some .consecAbort ∧
          (syncLoop backend false md keys n (i + 1) ts st2).unattempted =
            st.unattempted + ((t :: ts).length - (10 - st.consecutive_failures)) ∧
          backendCalls (syncLoop backend false md keys n (i + 1) ts st2).events =
            backendCalls st.events + (10 - st.consecutive_failures) := by
        intro st2 e1 e2 e3 e4 e5 e6 e7 e8 e9 e10
        obtain ⟨g1, g2, g3, g4, g5, g6, g7, g8, g9, g10⟩ :=
          ih (i + 1) st2 e8 (by rw [e5]; exact hab) (by rw [e6]; exact hbud)
            (by omega) (by simp only [List.length_cons] at hlen; omega)
            (fun x hx => hall x (List.mem_cons_of_mem _ hx))
        refine ⟨by rw [g1, e1], by rw [g2, e2], by rw [g3, e3, e7]; omega,
          by rw [g4, e4], by rw [g5, e5], by rw [g6, e6], g7, g8, ?_, ?_⟩
        · rw [g9, e9, e7]
          simp only [List.length_cons]
          omega
        · rw [g10, e10, e7]
          omega
      by_cases hpause : 3 ≤ st.consecutive_failures + 1
      · rw [if_pos hpause]
        refine hrec _ rfl rfl rfl rfl rfl rfl rfl hstop rfl ?_
        rw [backendCalls_append, backendCalls_append]
        simp [backendCalls]
      · rw [if_neg hpause]
        refine hrec _ rfl rfl rfl rfl rfl rfl rfl hstop rfl ?_
        rw [backendCalls_append]
        simp [backendCalls]

/-- Claim C4: if every attempted track of a playlist fails with a
generic (non-throttle, non-age-restricted) backend error and at least
10 tracks are present, sync_playlist stops right after the 10th
consecutive failure: failed == 10, downloaded == skipped == 0, exactly
10 backend calls were made, and the remaining tracks are absent from
the stats (left unattempted). -/
theorem c4_consecutive_failure_abort (backend : Track → BackendResult)
    (tracks : List Track) (files : List String) (throttle : ThrottleState)
    (md dc : Option Nat) (msg : Track → String)
    (hab : throttle.session_aborted = false)
    (hbud : budgetExhausted md dc = false)
    (hlen : 10 ≤ tracks.length)
    (hfail : ∀ t ∈ tracks, (folderKeys files).contains (normKey t) = false ∧
      backend t = .downloadError (msg t) ∧ is_throttle_error (msg t) = false ∧
      is_age_restricted (msg t) = false) :
    (sync_playlist backend (.ok tracks) files throttle false md dc).stats.failed = 10 ∧
    (sync_playlist backend (.ok tracks) files throttle false md dc).stats.downloaded = 0 ∧
    (sync_playlist backend (.ok tracks) files throttle false md dc).stats.skipped = 0 ∧
    (sync_playlist backend (.ok tracks) files throttle false md dc).stats.total =
      tracks.length ∧
    (sync_playlist backend (.ok tracks) files throttle false md dc).stopped =
      some .consecAbort ∧
    (sync_playlist backend (.ok tracks) files throttle false md dc).unattempted =
      tracks.length - 10 ∧
    backendCalls (sync_playlist backend (.ok tracks) files throttle false md dc).events =
      10 := by
  have := syncLoop_all_fail backend md (folderKeys files) tracks.length msg tracks 1
    (initLoopState tracks.length throttle dc) rfl hab hbud
    (by show (0 : Nat) < 10; omega)
    (by show 10 - 0 ≤ tracks.length; omega)
    (fun t htm => ⟨(hfail t htm).1, (hfail t htm).2.1, (hfail t htm).2.2.1⟩)
  obtain ⟨g1, g2, g3, g4, g5, g6, g7, g8, g9, g10⟩ := this
  simp only [sync_playlist]
  refine ⟨?_, ?_, ?_, ?_, g8, ?_, ?_⟩
  · rw [g3]
    show 0 + (10 - 0) = 10
    omega
  · rw [g2]
    rfl
  · rw [g1]
    rfl
  · rw [g4]
    rfl
  · rw [g9]
    show 0 + (tracks.length - (10 - 0)) = tracks.length - 10
    omega
  · rw [g10]
    show backendCalls [] + (10 - 0) = 10
    simp [backendCalls]

theorem c4_consecutive_failure_abort_witness :
    budgetExhausted none none = false ∧
    10 ≤ (List.replicate 12 (⟨"T", ["A"], "", 0, ""⟩ : Track)).length ∧
    (∀ t ∈ List.replicate 12 (⟨"T", ["A"], "", 0, ""⟩ : Track),
      (folderKeys []).contains (normKey t) = false ∧
      (fun _ => BackendResult.downloadError "Video unavailable") t =
        .downloadError ((fun _ => "Video unavailable") t) ∧
      is_throttle_error ((fun _ => "Video unavailable") t) = false ∧
      is_age_restricted ((fun _ => "Video unavailable") t) = false) ∧
    (sync_playlist (fun _ => .downloadError "Video unavailable")
        (.ok (List.replicate 12 (⟨"T", ["A"], "", 0, ""⟩ : Track))) []
        ⟨0, false⟩ false none none).stats.failed = 10 ∧
    (sync_playlist (fun _ => .downloadError "Video unavailable")
        (.ok (List.replicate 12 (⟨"T", ["A"], "", 0, ""⟩ : Track))) []
        ⟨0, false⟩ false none none).unattempted = 2 :=
  ⟨rfl, by decide, by decide,
    (c4_consecutive_failure_abort (fun _ => .downloadError "Video unavailable")
      (List.replicate 12 ⟨"T", ["A"], "", 0, ""⟩) [] ⟨0, false⟩ none none
      (fun _ => "Video unavailable") rfl rfl (by decide) (by decide)).1,
    by
      have := (c4_consecutive_failure_abort
        (fun _ => .downloadError "Video unavailable")
        (List.replicate 12 ⟨"T", ["A"], "", 0, ""⟩) [] ⟨0, false⟩ none none
        (fun _ => "Video unavailable") rfl rfl (by decide) (by decide)).2.2.2.2.2.1
      rw [this]
      rfl⟩

theorem download_track_success (backend : Track → BackendResult) (t : Track)
    (dur : Option Nat) (th : ThrottleState) (hab : th.session_aborted = false)
    (hb : backend t = .success dur) :
    download_track t backend th false =
      (true, th, [.backendCall (searchQuery t)]) := by
  unfold download_track
  rw [if_neg (by simp [hab]), if_neg (by simp), hb]

theorem syncStep_success (backend : Track → BackendResult)
    (md : Option Nat) (keys : List String) (n i : Nat) (t : Track)
    (dur : Option Nat) (st : LoopState) (hstop : st.stopped = none)
    (hab : st.throttle.session_aborted = false)
    (hbud : budgetExhausted md st.download_count = false)
    (hkey : keys.contains (normKey t) = false)
    (hb : backend t = .success dur) :
    syncStep backend false md keys n i t st =
      { st with
        stats := { st.stats with downloaded := st.stats.downloaded + 1 },
        consecutive_failures := 0,
        download_count := st.download_count.map (· + 1),
        events := st.events ++ [.backendCall (searchQuery t)] ++
          (if i < n then [Event.sleepJitter] else []) } := by
  unfold syncStep
  rw [if_neg (by simp [hstop]), if_neg (by simp [hab]), if_neg (by simp [hbud]),
    if_neg (by rw [hkey]; simp)]
  simp only [download_track_success backend t dur st.throttle hab hb]
  simp

/-- Claim C6: within one playlist, three consecutive failures trigger
exactly one 60-second cooldown pause (and not the playlist abort), the
loop continues with the next track, and a subsequent success resets the
consecutive-failure counter to 0.  The final event trace shows exactly
one Event.sleep 60 between the third and fourth backend calls. -/
theorem c6_failure_pause_and_reset (backend : Track → BackendResult)
    (a b c d : Track) (ma mb mc : String) (dur : Option Nat)
    (files : List String) (th : ThrottleState) (dc : Option Nat)
    (hab : th.session_aborted = false)
    (ha : backend a = .downloadError ma) (hta : is_throttle_error ma = false)
    (hb : backend b = .downloadError mb) (htb : is_throttle_error mb = false)
    (hc : backend c = .downloadError mc) (htc : is_throttle_error mc = false)
    (hd : backend d = .success dur)
    (hka : (folderKeys files).contains (normKey a) = false)
    (hkb : (folderKeys files).contains (normKey b) = false)
    (hkc : (folderKeys files).contains (normKey c) = false)
    (hkd : (folderKeys files).contains (normKey d) = false) :
    sync_playlist backend (.ok [a, b, c, d]) files th false none dc =
      { stats := ⟨0, 1, 3, 4⟩, throttle := th,
        download_count := dc.map (· + 1), consecutive_failures := 0,
        failed_tracks := [⟨a.name, a.artists, a.spotify_url⟩,
          ⟨b.name, b.artists, b.spotify_url⟩,
          ⟨c.name, c.artists, c.spotify_url⟩],
        events := [.backendCall (searchQuery a), .backendCall (searchQuery b),
          .backendCall (searchQuery c), .sleep 60, .backendCall (searchQuery d)],
        stopped := none, unattempted := 0 } := by
  have e1 : syncStep backend false none (folderKeys files) 4 1 a
      (initLoopState 4 th dc) =
      ⟨⟨0, 0, 1, 4⟩, th, dc, 1, [⟨a.name, a.artists, a.spotify_url⟩],
        [.backendCall (searchQuery a)], none, 0⟩ := by
    rw [syncStep_generic_failure backend none (folderKeys files) 4 1 a ma
      (initLoopState 4 th dc) rfl hab rfl hka ha hta]
    dsimp only [initLoopState]
    norm_num
  have e2 : syncStep backend false none (folderKeys files) 4 2 b
      (⟨⟨0, 0, 1, 4⟩, th, dc, 1, [⟨a.name, a.artists, a.spotify_url⟩],
        [.backendCall (searchQuery a)], none, 0⟩ : LoopState) =
      ⟨⟨0, 0, 2, 4⟩, th, dc, 2,
        [⟨a.name, a.artists, a.spotify_url⟩, ⟨b.name, b.artists, b.spotify_url⟩],
        [.backendCall (searchQuery a), .backendCall (searchQuery b)], none, 0⟩ := by
    rw [syncStep_generic_failure backend none (folderKeys files) 4 2 b mb
      _ rfl hab rfl hkb hb htb]
    norm_num
  have e3 : syncStep backend false none (folderKeys files) 4 3 c
      (⟨⟨0, 0, 2, 4⟩, th, dc, 2,
        [⟨a.name, a.artists, a.spotify_url⟩, ⟨b.name, b.artists, b.spotify_url⟩],
        [.backendCall (searchQuery a), .backendCall (searchQuery b)], none,
        0⟩ : LoopState) =
      ⟨⟨0, 0, 3, 4⟩, th, dc, 3,
        [⟨a.name, a.artists, a.spotify_url⟩, ⟨b.name, b.artists, b.spotify_url⟩,
          ⟨c.name, c.artists, c.spotify_url⟩],
        [.backendCall (searchQuery a), .backendCall (searchQuery b),
          .backendCall (searchQuery c), .sleep 60], none, 0⟩ := by
    rw [syncStep_generic_failure backend none (folderKeys files) 4 3 c mc
      _ rfl hab rfl hkc hc htc]
    norm_num
  have e4 : syncStep backend false none (folderKeys files) 4 4 d
      (⟨⟨0, 0, 3, 4⟩, th, dc, 3,
        [⟨a.name, a.artists, a.spotify_url⟩, ⟨b.name, b.artists, b.spotify_url⟩,
          ⟨c.name, c.artists, c.spotify_url⟩],
        [.backendCall (searchQuery a), .backendCall (searchQuery b),
          .backendCall (searchQuery c), .sleep 60], none, 0⟩ : LoopState) =
      ⟨⟨0, 1, 3, 4⟩, th, dc.map (· + 1), 0,
        [⟨a.name, a.artists, a.spotify_url⟩, ⟨b.name, b.artists, b.spotify_url⟩,
          ⟨c.name, c.artists, c.spotify_url⟩],
        [.backendCall (searchQuery a), .backendCall (searchQuery b),
          .backendCall (searchQuery c), .sleep 60, .backendCall (searchQuery d)],
        none, 0⟩ := by
    rw [syncStep_success backend none (folderKeys files) 4 4 d dur
      _ rfl hab rfl hkd hd]
    norm_num
  simp only [sync_playlist]
  show syncLoop backend false none (folderKeys files) 4 1 [a, b, c, d]
    (initLoopState 4 th dc) = _
  simp only [syncLoop]
  rw [e1, e2, e3, e4]

theorem c6_failure_pause_and_reset_witness :
    (⟨0, false⟩ : ThrottleState).session_aborted = false ∧
    is_throttle_error "Video unavailable" = false ∧
    (folderKeys []).contains
      (normKey (⟨"D", ["A"], "", 0, ""⟩ : Track)) = false ∧
    (sync_playlist
        (fun t => if t.name = "D" then .success (some 200)
          else .downloadError "Video unavailable")
        (.ok [⟨"T1", ["A"], "", 0, ""⟩, ⟨"T2", ["A"], "", 0, ""⟩,
          ⟨"T3", ["A"], "", 0, ""⟩, ⟨"D", ["A"], "", 0, ""⟩]) []
        ⟨0, false⟩ false none none).consecutive_failures = 0 ∧
    (sync_playlist
        (fun t => if t.name = "D" then .success (some 200)
          else .downloadError "Video unavailable")
        (.ok [⟨"T1", ["A"], "", 0, ""⟩, ⟨"T2", ["A"], "", 0, ""⟩,
          ⟨"T3", ["A"], "", 0, ""⟩, ⟨"D", ["A"], "", 0, ""⟩]) []
        ⟨0, false⟩ false none none).events =
      [.backendCall (searchQuery ⟨"T1", ["A"], "", 0, ""⟩),
        .backendCall (searchQuery ⟨"T2", ["A"], "", 0, ""⟩),
        .backendCall (searchQuery ⟨"T3", ["A"], "", 0, ""⟩), .sleep 60,
        .backendCall (searchQuery ⟨"D", ["A"], "", 0, ""⟩)] := by
  have key := c6_failure_pause_and_reset
    (fun t => if t.name = "D" then .success (some 200)
      else .downloadError "Video unavailable")
    ⟨"T1", ["A"], "", 0, ""⟩ ⟨"T2", ["A"], "", 0, ""⟩ ⟨"T3", ["A"], "", 0, ""⟩
    ⟨"D", ["A"], "", 0, ""⟩ "Video unavailable" "Video unavailable"
    "Video unavailable" (some 200) [] ⟨0, false⟩ none rfl (by decide)
    (by decide) (by decide) (by decide) (by decide) (by decide) (by decide)
    (by decide) (by decide) (by decide) (by decide)
  exact ⟨rfl, by decide, by decide, by rw [key], by rw [key]⟩

theorem syncStep_stopped (backend : Track → BackendResult) (dry_run : Bool)
    (md : Option Nat) (keys : List String) (n i : Nat) (t : Track)
    (st : LoopState) (h : st.stopped.isSome = true) :
    syncStep backend dry_run md keys n i t st =
      { st with unattempted := st.unattempted + 1 } := by
  unfold syncStep
  rw [if_pos h]

theorem syncStep_budget_stop (backend : Track → BackendResult) (dry_run : Bool)
    (md : Option Nat) (keys : List String) (n i : Nat) (t : Track)
    (st : LoopState) (hstop : st.stopped = none)
    (hab : st.throttle.session_aborted = false)
    (hbud : budgetExhausted md st.download_count = true) :
    syncStep backend dry_run md keys n i t st =
      { st with
        stopped := some .budgetReached,
        unattempted := st.unattempted + 1 } := by
  unfold syncStep
  rw [if_neg (by simp [hstop]), if_neg (by simp [hab]), if_pos hbud]

theorem syncStep_budget (backend : Track → BackendResult) (dry_run : Bool)
    (m : Nat) (keys : List String) (n i : Nat) (t : Track) (st : LoopState)
    (c : Nat) (hdc : st.download_count = some c) (hcm : c ≤ m) :
    ∃ c2,
      (syncStep backend dry_run (some m) keys n i t st).download_count = some c2 ∧
      c2 ≤ m ∧
      (syncStep backend dry_run (some m) keys n i t st).stats.downloaded + c =
        st.stats.downloaded + c2 := by
  unfold syncStep
  by_cases h1 : st.stopped.isSome = true
  · rw [if_pos h1]
    exact ⟨c, hdc, hcm, rfl⟩
  rw [if_neg h1]
  by_cases h2 : st.throttle.session_aborted = true
  · rw [if_pos h2]
    exact ⟨c, hdc, hcm, rfl⟩
  rw [if_neg h2]
  by_cases h3 : budgetExhausted (some m) st.download_count = true
  · rw [if_pos h3]
    exact ⟨c, hdc, hcm, rfl⟩
  rw [if_neg h3]
  by_cases h4 : keys.contains (normKey t) = true
  · rw [if_pos h4]
    exact ⟨c, hdc, hcm, rfl⟩
  rw [if_neg h4]
  simp only []
  by_cases h5 : (download_track t backend st.throttle dry_run).1 = true
  · rw [if_pos h5]
    refine ⟨c + 1, ?_, ?_, ?_⟩
    · show st.download_count.map (· + 1) = some (c + 1)
      rw [hdc]
      rfl
    · rw [hdc] at h3
      simp only [budgetExhausted, decide_eq_true_eq] at h3
      omega
    · show st.stats.downloaded + 1 + c = st.stats.downloaded + (c + 1)
      omega
  · rw [if_neg h5]
    by_cases h6 : CONSECUTIVE_FAIL_ABORT ≤ st.consecutive_failures + 1
    · rw [if_pos h6]
      exact ⟨c, hdc, hcm, rfl⟩
    · rw [if_neg h6]
      by_cases h7 : CONSECUTIVE_FAIL_THRESHOLD ≤ st.consecutive_failures + 1
      · rw [if_pos h7]
        exact ⟨c, hdc, hcm, rfl⟩
      · rw [if_neg h7]
        exact ⟨c, hdc, hcm, rfl⟩

theorem syncLoop_budget (backend : Track → BackendResult) (dry_run : Bool)
    (m : Nat) (keys : List String) (n : Nat) :
    ∀ (ts : List Track) (i : Nat) (st : LoopState) (c : Nat),
    st.download_count = some c → c ≤ m →
    ∃ c2,
      (syncLoop backend dry_run (some m) keys n i ts st).download_count = some c2 ∧
      c2 ≤ m ∧
      (syncLoop backend dry_run (some m) keys n i ts st).stats.downloaded + c =
        st.stats.downloaded + c2 := by
  intro ts
  induction ts with
  | nil =>
    intro i st c hdc hcm
    exact ⟨c, hdc, hcm, rfl⟩
  | cons t ts ih =>
    intro i st c hdc hcm
    simp only [syncLoop]
    obtain ⟨c1, d1, l1, e1⟩ := syncStep_budget backend dry_run m keys n i t st c
      hdc hcm
    obtain ⟨c2, d2, l2, e2⟩ :=
      ih (i + 1) (syncStep backend dry_run (some m) keys n i t st) c1 d1 l1
    exact ⟨c2, d2, l2, by omega⟩

theorem sync_playlist_budget (backend : Track → BackendResult)
    (fetched : Except String (List Track)) (files : List String)
    (throttle : ThrottleState) (dry_run : Bool) (m c : Nat) (hcm : c ≤ m) :
    ∃ c2,
      (sync_playlist backend fetched files throttle dry_run (some m)
        (some c)).download_count = some c2 ∧
      c2 ≤ m ∧
      (sync_playlist backend fetched files throttle dry_run (some m)
        (some c)).stats.downloaded + c = c2 := by
  match fetched with
  | .error e =>
    refine ⟨c, rfl, hcm, ?_⟩
    show 0 + c = c
    omega
  | .ok tracks =>
    obtain ⟨c2, d2, l2, e2⟩ := syncLoop_budget backend dry_run m
      (folderKeys files) tracks.length tracks 1
      (initLoopState tracks.length throttle (some c)) c rfl hcm
    refine ⟨c2, d2, l2, ?_⟩
    have h0 : (initLoopState tracks.length throttle (some c)).stats.downloaded
      = 0 := rfl
    simp only [sync_playlist]
    omega

theorem runSession_budget (backend : Track → BackendResult) (dry_run : Bool)
    (m : Nat) :
    ∀ (ps : List ((Except String (List Track)) × List String))
      (th : ThrottleState) (c : Nat), c ≤ m →
    ∃ c2,
      (runSession backend dry_run (some m) th (some c) ps).download_count =
        some c2 ∧
      c2 ≤ m ∧
      (runSession backend dry_run (some m) th (some c) ps).stats.downloaded + c =
        c2 := by
  intro ps
  induction ps with
  | nil =>
    intro th c hcm
    refine ⟨c, rfl, hcm, ?_⟩
    show zeroStats.downloaded + c = c
    show 0 + c = c
    omega
  | cons p ps ih =>
    intro th c hcm
    simp only [runSession]
    by_cases habort : th.session_aborted = true
    · rw [if_pos habort]
      refine ⟨c, rfl, hcm, ?_⟩
      show 0 + c = c
      omega
    · rw [if_neg habort]
      obtain ⟨c1, d1, l1, e1⟩ := sync_playlist_budget backend p.1 p.2 th dry_run
        m c hcm
      rw [d1]
      obtain ⟨c2, d2, l2, e2⟩ := ih
        (sync_playlist backend p.1 p.2 th dry_run (some m) (some c)).throttle
        c1 l1
      refine ⟨c2, d2, l2, ?_⟩
      show (sync_playlist backend p.1 p.2 th dry_run (some m)
          (some c)).stats.downloaded +
        (runSession backend dry_run (some m) _ (some c1) ps).stats.downloaded +
          c = c2
      omega

/-- Claim C5: with a configured max_downloads ceiling the shared
download counter is checked before every attempt, so the session-wide
number of downloads never exceeds the ceiling (first conjunct: the final
counter stays ≤ m and equals the starting counter plus all downloads);
and in the concrete situation max_downloads = 1 with two playlists of
two eligible tracks each, exactly one track is downloaded in the whole
session and only one backend call is ever made (second conjunct). -/
theorem c5_download_budget (backend : Track → BackendResult) (dry_run : Bool)
    (m c0 : Nat) (th : ThrottleState)
    (playlists : List ((Except String (List Track)) × List String))
    (hc : c0 ≤ m) :
    (∃ cF,
      (runSession backend dry_run (some m) th (some c0)
        playlists).download_count = some cF ∧
      cF ≤ m ∧
      (runSession backend dry_run (some m) th (some c0)
        playlists).stats.downloaded + c0 = cF ∧
      (runSession backend dry_run (some m) th (some c0)
        playlists).stats.downloaded + c0 ≤ m) ∧
    (∀ (t1 t2 t3 t4 : Track) (d1 d2 d3 d4 : Option Nat)
      (files1 files2 : List String),
      th.session_aborted = false →
      backend t1 = .success d1 → backend t2 = .success d2 →
      backend t3 = .success d3 → backend t4 = .success d4 →
      (folderKeys files1).contains (normKey t1) = false →
      (folderKeys files1).contains (normKey t2) = false →
      (folderKeys files2).contains (normKey t3) = false →
      (folderKeys files2).contains (normKey t4) = false →
      (runSession backend false (some 1) th (some 0)
        [(.ok [t1, t2], files1), (.ok [t3, t4], files2)]).stats.downloaded = 1 ∧
      backendCalls (runSession backend false (some 1) th (some 0)
        [(.ok [t1, t2], files1), (.ok [t3, t4], files2)]).events = 1) := by
  constructor
  · obtain ⟨cF, d, l, e⟩ := runSession_budget backend dry_run m playlists th c0 hc
    exact ⟨cF, d, l, by omega, by omega⟩
  · intro t1 t2 t3 t4 d1 d2 d3 d4 files1 files2 hab hs1 hs2 hs3 hs4 hk1 hk2 hk3
      hk4
    have s1 : syncStep backend false (some 1) (folderKeys files1) 2 1 t1
        (initLoopState 2 th (some 0)) =
        ⟨⟨0, 1, 0, 2⟩, th, some 1, 0, [],
          [.backendCall (searchQuery t1), .sleepJitter], none, 0⟩ := by
      rw [syncStep_success backend (some 1) (folderKeys files1) 2 1 t1 d1
        (initLoopState 2 th (some 0)) rfl hab rfl hk1 hs1]
      rfl
    have s2 : syncStep backend false (some 1) (folderKeys files1) 2 2 t2
        (⟨⟨0, 1, 0, 2⟩, th, some 1, 0, [],
          [.backendCall (searchQuery t1), .sleepJitter], none, 0⟩ : LoopState) =
        ⟨⟨0, 1, 0, 2⟩, th, some 1, 0, [],
          [.backendCall (searchQuery t1), .sleepJitter], some .budgetReached,
          1⟩ := by
      rw [syncStep_budget_stop backend false (some 1) (folderKeys files1) 2 2 t2
        (⟨⟨0, 1, 0, 2⟩, th, some 1, 0, [],
          [.backendCall (searchQuery t1), .sleepJitter], none, 0⟩ : LoopState)
        rfl hab rfl]
    have r1 : sync_playlist backend (.ok [t1, t2]) files1 th false (some 1)
        (some 0) =
        ⟨⟨0, 1, 0, 2⟩, th, some 1, 0, [],
          [.backendCall (searchQuery t1), .sleepJitter], some .budgetReached,
          1⟩ := by
      simp only [sync_playlist]
      show syncLoop backend false (some 1) (folderKeys files1) 2 1 [t1, t2]
        (initLoopState 2 th (some 0)) = _
      simp only [syncLoop]
      rw [s1, s2]
    have s3 : syncStep backend false (some 1) (folderKeys files2) 2 1 t3
        (initLoopState 2 th (some 1)) =
        ⟨⟨0, 0, 0, 2⟩, th, some 1, 0, [], [], some .budgetReached, 1⟩ := by
      rw [syncStep_budget_stop backend false (some 1) (folderKeys files2) 2 1 t3
        (initLoopState 2 th (some 1)) rfl hab rfl]
      rfl
    have r2 : sync_playlist backend (.ok [t3, t4]) files2 th false (some 1)
        (some 1) =
        ⟨⟨0, 0, 0, 2⟩, th, some 1, 0, [], [], some .budgetReached, 2⟩ := by
      simp only [sync_playlist]
      show syncLoop backend false (some 1) (folderKeys files2) 2 1 [t3, t4]
        (initLoopState 2 th (some 1)) = _
      simp only [syncLoop]
      rw [s3]
      rw [syncStep_stopped backend false (some 1) (folderKeys files2) 2 (1 + 1)
        t4 (⟨⟨0, 0, 0, 2⟩, th, some 1, 0, [], [], some .budgetReached,
          1⟩ : LoopState) rfl]
    have hses : runSession backend false (some 1) th (some 0)
        [(.ok [t1, t2], files1), (.ok [t3, t4], files2)] =
        ⟨⟨0, 1, 0, 4⟩, th, some 1,
          [.backendCall (searchQuery t1), .sleepJitter, .sleep 10]⟩ := by
      simp only [runSession]
      rw [if_neg (by simp [hab])]
      dsimp only
      rw [r1]
      dsimp only
      rw [if_neg (by simp [hab])]
      dsimp only
      rw [r2]
      simp [hab, addStats, zeroStats, PLAYLIST_DELAY]
    rw [hses]
    exact ⟨rfl, rfl⟩

theorem c5_download_budget_witness :
    (0 : Nat) ≤ 1 ∧
    ∃ cF,
      (runSession (fun _ => .success none) false (some 1) ⟨0, false⟩ (some 0)
        []).download_count = some cF ∧
      cF ≤ 1 ∧
      (runSession (fun _ => .success none) false (some 1) ⟨0, false⟩ (some 0)
        []).stats.downloaded + 0 = cF ∧
      (runSession (fun _ => .success none) false (some 1) ⟨0, false⟩ (some 0)
        []).stats.downloaded + 0 ≤ 1 :=
  ⟨by decide,
    (c5_download_budget (fun _ => .success none) false 1 0 ⟨0, false⟩ []
      (by decide)).1⟩

theorem addStats_zeroStats (b : Stats) : addStats zeroStats b = b := by
  cases b
  simp [addStats, zeroStats]

/-- Claim C8: when fetching the remote track list fails, sync_playlist
returns immediately with the all-zero stats for that playlist and an
empty event trace (no download attempted), leaving the throttle state
and the shared download counter untouched; and the session goes on with
the next playlist — a session whose first playlist has a failing fetch
produces exactly the stats, throttle state and download counter of the
session over the remaining playlists. -/
theorem c8_fetch_failure (backend : Track → BackendResult) (dry_run : Bool)
    (md : Option Nat) (e : String) (files : List String)
    (rest : List ((Except String (List Track)) × List String))
    (th : ThrottleState) (dc : Option Nat) :
    sync_playlist backend (.error e) files th dry_run md dc =
      initLoopState 0 th dc ∧
    (sync_playlist backend (.error e) files th dry_run md dc).stats =
      ⟨0, 0, 0, 0⟩ ∧
    (sync_playlist backend (.error e) files th dry_run md dc).events = [] ∧
    (runSession backend dry_run md th dc ((.error e, files) :: rest)).stats =
      (runSession backend dry_run md th dc rest).stats ∧
    (runSession backend dry_run md th dc ((.error e, files) :: rest)).throttle =
      (runSession backend dry_run md th dc rest).throttle ∧
    (runSession backend dry_run md th dc
        ((.error e, files) :: rest)).download_count =
      (runSession backend dry_run md th dc rest).download_count := by
  refine ⟨rfl, rfl, rfl, ?_⟩
  by_cases hab : th.session_aborted = true
  · have hcons : runSession backend dry_run md th dc
        ((.error e, files) :: rest) = ⟨zeroStats, th, dc, []⟩ := by
      simp only [runSession]
      rw [if_pos hab]
    have hrest : (runSession backend dry_run md th dc rest).stats = zeroStats ∧
        (runSession backend dry_run md th dc rest).throttle = th ∧
        (runSession backend dry_run md th dc rest).download_count = dc := by
      match rest with
      | [] => exact ⟨rfl, rfl, rfl⟩
      | p :: ps =>
        have : runSession backend dry_run md th dc (p :: ps) =
            ⟨zeroStats, th, dc, []⟩ := by
          simp only [runSession]
          rw [if_pos hab]
        rw [this]
        exact ⟨rfl, rfl, rfl⟩
    rw [hcons]
    exact ⟨hrest.1.symm, hrest.2.1.symm, hrest.2.2.symm⟩
  · have hcons : runSession backend dry_run md th dc
        ((.error e, files) :: rest) =
        ⟨addStats zeroStats (runSession backend dry_run md th dc rest).stats,
          (runSession backend dry_run md th dc rest).throttle,
          (runSession backend dry_run md th dc rest).download_count,
          (if ¬dry_run = true ∧ rest.isEmpty = false ∧
              th.session_aborted = false then [Event.sleep PLAYLIST_DELAY]
            else []) ++
            (runSession backend dry_run md th dc rest).events⟩ := by
      simp only [runSession]
      rw [if_neg hab]
      rfl
    rw [hcons]
    exact ⟨by rw [addStats_zeroStats], rfl, rfl⟩

end GoGetMyPlaylists
